import Mathlib

/-!
Shallow embedding of the backend.shifaul.dev service layer (NestJS + Prisma).

Machine state is a `DB` record of row lists; Prisma calls become list
operations: `findUnique` is `List.find?` on the primary key, `update` maps
the updating function over rows with the matching key, `create` appends a
row, `delete` filters the row out.  Thrown HTTP exceptions become the
`Except Exn` error channel; timestamps (`new Date()`) are threaded as a
`now : Nat` parameter (milliseconds).  Process-log output is modelled only
where a claim is about it (the audit-log stub), since it is not persistent
state.
-/

/-- HTTP exceptions thrown by the services (NestJS exception classes). -/
inductive Exn where
  | forbidden (msg : String)
  | notFound (msg : String)
  | badRequest (msg : String)
deriving DecidableEq, Repr

def Exn.isForbidden : Exn → Bool
  | .forbidden _ => true
  | _ => false

def Exn.isBadRequest : Exn → Bool
  | .badRequest _ => true
  | _ => false

/-- Prisma enum `TicketStatus`. -/
inductive TicketStatus where
  | OPEN | IN_PROGRESS | RESOLVED | CLOSED
deriving DecidableEq, Repr

/-- Prisma enum `Priority`. -/
inductive Priority where
  | LOW | NORMAL | HIGH | URGENT
deriving DecidableEq, Repr

/-- Prisma enum `ReopenStatus`. -/
inductive ReopenStatus where
  | PENDING | APPROVED | REJECTED
deriving DecidableEq, Repr

/-- Prisma enum `UserStatus`. -/
inductive UserStatus where
  | ACTIVE | INACTIVE | SUSPENDED | DELETED
deriving DecidableEq, Repr

/-- Row of the `users` table (fields the claims touch). -/
structure User where
  id : String
  email : String
  name : String
  roles : List String
  status : UserStatus
  createdAt : Nat
  updatedAt : Nat
deriving DecidableEq, Repr

/-- Row of the `support_tickets` table. -/
structure SupportTicket where
  id : String
  title : String
  description : Option String
  status : TicketStatus
  priority : Priority
  createdById : Option String
  assignedToId : Option String
  closedAt : Option Nat
  createdAt : Nat
  updatedAt : Nat
deriving DecidableEq, Repr

/-- Row of the `ticket_replies` table. -/
structure TicketReply where
  id : String
  ticketId : String
  authorId : Option String
  content : String
  isInternal : Bool
  createdAt : Nat
  updatedAt : Nat
deriving DecidableEq, Repr

/-- Row of the `ticket_reopen_requests` table. -/
structure TicketReopenRequest where
  id : String
  ticketId : String
  requestedById : Option String
  reason : String
  status : ReopenStatus
  reviewedById : Option String
  reviewedAt : Option Nat
  createdAt : Nat
  updatedAt : Nat
deriving DecidableEq, Repr

/-- Row of the `contact_messages` table. -/
structure ContactMessage where
  id : String
  name : String
  email : String
deriving DecidableEq, Repr

/-- Row of the `blog_posts` table (tags inlined as names). -/
structure BlogPost where
  id : String
  title : String
  slug : String
  content : String
  thumbnail : Option String
  published : Bool
  authorId : String
  authorName : String
  tags : List String
deriving DecidableEq, Repr

/-- The relational database state shared by all services. -/
structure DB where
  users : List User
  tickets : List SupportTicket
  replies : List TicketReply
  reopenRequests : List TicketReopenRequest
  contactMessages : List ContactMessage
  blogPosts : List BlogPost
deriving DecidableEq, Repr

/-! ### `UserRole` enum and `PermissionUtils` (src/app.module.ts) -/

namespace UserRole

def ADMIN : String := "admin"

def STAFF : String := "staff"

def SUPPORT_AGENT : String := "support"

def DEVELOPER : String := "developer"

def USER : String := "user"

end UserRole

namespace PermissionUtils

/-- TS body: `roles.includes(UserRole.ADMIN)`. -/
def isAdmin (roles : List String) : Bool :=
  roles.contains UserRole.ADMIN

/-- TS body: `roles.some` over the four staff roles. -/
def isStaff (roles : List String) : Bool :=
  roles.any fun role =>
    role == UserRole.ADMIN ||
    role == UserRole.STAFF ||
    role == UserRole.SUPPORT_AGENT ||
    role == UserRole.DEVELOPER

/-- TS body: `roles.includes(SUPPORT_AGENT) || roles.includes(ADMIN)`. -/
def isSupportAgent (roles : List String) : Bool :=
  roles.contains UserRole.SUPPORT_AGENT || roles.contains UserRole.ADMIN

/-- TS body: `roles.includes(DEVELOPER) || roles.includes(ADMIN)`. -/
def isDeveloper (roles : List String) : Bool :=
  roles.contains UserRole.DEVELOPER || roles.contains UserRole.ADMIN

/-- Throws `ForbiddenException` unless the user has a staff role. -/
def requireStaff (roles : List String) : Except Exn Unit :=
  if isStaff roles then .ok () else .error (.forbidden "Access denied. Staff role required.")

/-- Documented as `0=user, 1=support, 2=staff, 3=admin, 4=developer`. -/
def getPermissionLevel (roles : List String) : Nat :=
  if isDeveloper roles then 4
  else if isAdmin roles then 3
  else if roles.contains UserRole.STAFF then 2
  else if isSupportAgent roles then 1
  else 0

end PermissionUtils

/-! ### Generic list helpers for the Prisma call model -/

/-- Insert into a sorted list (model of the ORM's `orderBy`). -/
def insertSorted {α : Type} (le : α → α → Bool) (a : α) : List α → List α
  | [] => [a]
  | b :: bs => if le a b then a :: b :: bs else b :: insertSorted le a bs

/-- Stable insertion sort modelling the ORM's `orderBy` row ordering. -/
def sortRows {α : Type} (le : α → α → Bool) : List α → List α
  | [] => []
  | a :: as => insertSorted le a (sortRows le as)

/-! ### SupportTicketsService (user-facing support-ticket service) -/

namespace SupportTicketsService

/-- Model of `prisma.supportTicket.findUnique` on the primary key. -/
def findTicket (db : DB) (ticketId : String) : Option SupportTicket :=
  db.tickets.find? fun t => decide (t.id = ticketId)

/-- Model of `prisma.user.findUnique` on the primary key. -/
def findUser (db : DB) (userId : String) : Option User :=
  db.users.find? fun u => decide (u.id = userId)

/-- Model of `prisma.ticketReopenRequest.findUnique` on the primary key. -/
def findReopenRequest (db : DB) (requestId : String) : Option TicketReopenRequest :=
  db.reopenRequests.find? fun r => decide (r.id = requestId)

/-- Model of `prisma.ticketReopenRequest.findFirst` for a PENDING request of a ticket. -/
def findPendingReopen (db : DB) (ticketId : String) : Option TicketReopenRequest :=
  db.reopenRequests.find? fun r =>
    decide (r.ticketId = ticketId ∧ r.status = ReopenStatus.PENDING)

/-- Model of `SupportTicketsService.getTicketById`: 404 on a missing ticket, 403 when a
non-staff caller is not the creator. -/
def getTicketById (ticketId userId : String) (userRoles : List String) (db : DB) :
    Except Exn SupportTicket :=
  match findTicket db ticketId with
  | none => .error (.notFound "Ticket not found")
  | some ticket =>
    if PermissionUtils.isStaff userRoles = false ∧ ticket.createdById ≠ some userId then
      .error (.forbidden "You can only view your own tickets")
    else
      .ok ticket

/-- The `TicketQueryDto` with the defaults applied by destructuring in `getTickets`. -/
structure TicketQueryDto where
  status : Option TicketStatus := none
  priority : Option Priority := none
  search : Option String := none
  assigneeId : Option String := none
  creatorId : Option String := none
  page : Nat := 1
  limit : Nat := 10
  sortBy : String := "createdAt"
  sortOrder : String := "desc"
deriving DecidableEq, Repr

/-- The Prisma `where` object accumulated by `getTickets`. -/
structure WhereClause where
  createdById : Option String := none
  status : Option TicketStatus := none
  assignedToId : Option String := none
  priority : Option Priority := none
  search : Option String := none
deriving DecidableEq, Repr

/-- Case-insensitive substring match (`contains`, `mode: 'insensitive'`). -/
def containsCI (haystack needle : String) : Bool :=
  decide (List.IsInfix needle.toLower.toList haystack.toLower.toList)

/-- A ticket row satisfies the accumulated `where` object. -/
def matchesWhere (w : WhereClause) (t : SupportTicket) : Bool :=
  (match w.createdById with
   | none => true
   | some c => decide (t.createdById = some c)) &&
  (match w.status with
   | none => true
   | some s => decide (t.status = s)) &&
  (match w.assignedToId with
   | none => true
   | some a => decide (t.assignedToId = some a)) &&
  (match w.priority with
   | none => true
   | some p => decide (t.priority = p)) &&
  (match w.search with
   | none => true
   | some s =>
     containsCI t.title s ||
     (match t.description with
      | none => false
      | some d => containsCI d s))

/-- Column order used by Postgres for the `Priority` enum. -/
def priorityOrd : Priority → Nat
  | .LOW => 0
  | .NORMAL => 1
  | .HIGH => 2
  | .URGENT => 3

/-- Column order used by Postgres for the `TicketStatus` enum. -/
def statusOrd : TicketStatus → Nat
  | .OPEN => 0
  | .IN_PROGRESS => 1
  | .RESOLVED => 2
  | .CLOSED => 3

/-- The sort key selected by the `sortBy` query field (documented values
`createdAt`, `updatedAt`, `priority`, `status`). -/
def sortKey (sortBy : String) (t : SupportTicket) : Nat :=
  match sortBy with
  | "updatedAt" => t.updatedAt
  | "priority" => priorityOrd t.priority
  | "status" => statusOrd t.status
  | _ => t.createdAt

/-- The `orderBy` object as a Boolean comparator on rows. -/
def ticketLE (sortBy sortOrder : String) (a b : SupportTicket) : Bool :=
  if sortOrder = "asc" then decide (sortKey sortBy a ≤ sortKey sortBy b)
  else decide (sortKey sortBy b ≤ sortKey sortBy a)

/-- The `assigneeId` filter step of the `where` construction. -/
def whereWithAssignee (w : WhereClause) (userId : String) (assigneeId : Option String)
    (userRoles : List String) : Except Exn WhereClause :=
  match assigneeId with
  | none => .ok w
  | some a =>
    if PermissionUtils.isStaff userRoles = false ∧ a ≠ userId then
      .error (.forbidden "You can only filter tickets assigned to yourself")
    else
      .ok { w with assignedToId := some a }

/-- The `creatorId` filter step of the `where` construction. -/
def whereWithCreator (w : WhereClause) (userId : String) (creatorId : Option String)
    (userRoles : List String) : Except Exn WhereClause :=
  match creatorId with
  | none => .ok w
  | some c =>
    if PermissionUtils.isStaff userRoles = false ∧ c ≠ userId then
      .error (.forbidden "You can only filter tickets created by yourself")
    else
      .ok { w with createdById := some c }

/-- The `priority` filter step of the `where` construction. -/
def whereWithPriority (w : WhereClause) (priority : Option Priority) : WhereClause :=
  match priority with
  | none => w
  | some p => { w with priority := some p }

/-- The `search` filter step of the `where` construction. -/
def whereWithSearch (w : WhereClause) (search : Option String) : WhereClause :=
  match search with
  | none => w
  | some s => { w with search := some s }

/-- The full `where` object built by `getTickets` (non-staff callers are
restricted to their own tickets before any query filter is applied). -/
def buildWhere (userId : String) (q : TicketQueryDto) (userRoles : List String) :
    Except Exn WhereClause :=
  let w0 : WhereClause :=
    if PermissionUtils.isStaff userRoles then { status := q.status }
    else { createdById := some userId }
  match whereWithAssignee w0 userId q.assigneeId userRoles with
  | .error e => .error e
  | .ok w1 =>
    match whereWithCreator w1 userId q.creatorId userRoles with
    | .error e => .error e
    | .ok w2 => .ok (whereWithSearch (whereWithPriority w2 q.priority) q.search)

/-- Shape of the `getTickets` response. -/
structure TicketListResult where
  tickets : List SupportTicket
  page : Nat
  limit : Nat
  total : Nat
  totalPages : Nat
deriving DecidableEq, Repr

/-- Model of `SupportTicketsService.getTickets`: filter, count, order, paginate. -/
def getTickets (userId : String) (q : TicketQueryDto) (userRoles : List String) (db : DB) :
    Except Exn TicketListResult :=
  match buildWhere userId q userRoles with
  | .error e => .error e
  | .ok w =>
    let filtered := db.tickets.filter (matchesWhere w)
    let total := filtered.length
    let sorted := sortRows (ticketLE q.sortBy q.sortOrder) filtered
    .ok { tickets := (sorted.drop ((q.page - 1) * q.limit)).take q.limit,
          page := q.page, limit := q.limit, total := total,
          totalPages := (total + q.limit - 1) / q.limit }

/-- Model of `SupportTicketsService.createReopenRequest` (ownership via `getTicketById`
with the default empty role list, then status and duplicate checks, then
`prisma.ticketReopenRequest.create` whose `status` column defaults to PENDING). -/
def createReopenRequest (ticketId userId : String) (reason : String) (newId : String)
    (now : Nat) (db : DB) : Except Exn TicketReopenRequest × DB :=
  match getTicketById ticketId userId [] db with
  | .error e => (.error e, db)
  | .ok ticket =>
    if ticket.createdById ≠ some userId then
      (.error (.forbidden "You can only reopen your own tickets"), db)
    else if ticket.status ≠ TicketStatus.CLOSED then
      (.error (.badRequest "Only closed tickets can be reopened"), db)
    else
      match findPendingReopen db ticketId with
      | some _ => (.error (.badRequest "A reopen request is already pending for this ticket"), db)
      | none =>
        let req : TicketReopenRequest :=
          { id := newId, ticketId := ticketId, requestedById := some userId, reason := reason,
            status := ReopenStatus.PENDING, reviewedById := none, reviewedAt := none,
            createdAt := now, updatedAt := now }
        (.ok req, { db with reopenRequests := db.reopenRequests ++ [req] })

/-- Model of `SupportTicketsService.processReopenRequest`: staff gate, 404 on a missing
request, 400 on a non-PENDING request, otherwise review the request and
(on approval) reopen the referenced ticket. -/
def processReopenRequest (requestId : String) (approve : Bool) (userId : String)
    (userRoles : List String) (now : Nat) (db : DB) : Except Exn TicketReopenRequest × DB :=
  match PermissionUtils.requireStaff userRoles with
  | .error e => (.error e, db)
  | .ok _ =>
    match findReopenRequest db requestId with
    | none => (.error (.notFound "Reopen request not found"), db)
    | some reopenRequest =>
      if reopenRequest.status ≠ ReopenStatus.PENDING then
        (.error (.badRequest "This reopen request has already been processed"), db)
      else
        let newStatus := if approve then ReopenStatus.APPROVED else ReopenStatus.REJECTED
        let updatedRequest :=
          { reopenRequest with
              status := newStatus, reviewedById := some userId, reviewedAt := some now }
        let db1 :=
          { db with
              reopenRequests := db.reopenRequests.map fun r =>
                if r.id = requestId then
                  { r with status := newStatus, reviewedById := some userId,
                           reviewedAt := some now }
                else r }
        if approve then
          (.ok updatedRequest,
           { db1 with
               tickets := db1.tickets.map fun t =>
                 if t.id = reopenRequest.ticketId then
                   { t with status := TicketStatus.OPEN, closedAt := none }
                 else t })
        else
          (.ok updatedRequest, db1)

/-- Model of `SupportTicketsService.assignTicket`: staff gate, 404 on a missing ticket
or assignee, 400 on a non-staff assignee, then reassign and reset status. -/
def assignTicket (ticketId : String) (assigneeId : Option String) (userId : String)
    (userRoles : List String) (db : DB) : Except Exn SupportTicket × DB :=
  match PermissionUtils.requireStaff userRoles with
  | .error e => (.error e, db)
  | .ok _ =>
    match findTicket db ticketId with
    | none => (.error (.notFound "Ticket not found"), db)
    | some ticket =>
      let assigneeCheck : Except Exn Unit :=
        match assigneeId with
        | none => .ok ()
        | some aid =>
          match findUser db aid with
          | none => .error (.notFound "Assignee not found")
          | some assignee =>
            if PermissionUtils.isStaff assignee.roles = false then
              .error (.badRequest "Assignee must be a staff member")
            else .ok ()
      match assigneeCheck with
      | .error e => (.error e, db)
      | .ok _ =>
        let newStatus := if assigneeId.isSome then TicketStatus.IN_PROGRESS else TicketStatus.OPEN
        (.ok { ticket with assignedToId := assigneeId, status := newStatus },
         { db with
             tickets := db.tickets.map fun t =>
               if t.id = ticketId then { t with assignedToId := assigneeId, status := newStatus }
               else t })

end SupportTicketsService

/-- The reopen request after review, as written back by `processReopenRequest`. -/
def reviewedRequest (req : TicketReopenRequest) (s : ReopenStatus) (userId : String)
    (now : Nat) : TicketReopenRequest :=
  { req with status := s, reviewedById := some userId, reviewedAt := some now }

/-! ### AdminSupportTicketService (admin ticket operations) -/

namespace AdminSupportTicketService

/-- Shape of the `updateTicketStatus` response. -/
structure StatusUpdateResult where
  id : String
  status : TicketStatus
  priority : Priority
  updatedAt : Nat
  closedAt : Option Nat
deriving DecidableEq, Repr

/-- Model of `AdminSupportTicketService.addInternalNote`: creates a reply marked internal. -/
def addInternalNote (ticketId : String) (content : String) (adminUserId : String)
    (noteType : String) (newId : String) (now : Nat) (db : DB) : DB :=
  { db with
      replies := db.replies ++
        [{ id := newId, ticketId := ticketId, authorId := some adminUserId,
           content := "[INTERNAL NOTE - " ++ noteType ++ "] " ++ content,
           isInternal := true, createdAt := now, updatedAt := now }] }

/-- Model of `AdminSupportTicketService.updateTicketStatus`: 404 on a missing ticket,
then update status (maintaining `closedAt`), optional priority, optional
internal note; `logAdminAction` touches no persistent state. -/
def updateTicketStatus (ticketId : String) (status : TicketStatus) (adminUserId : String)
    (priority : Option Priority) (internalNotes : Option String) (noteId : String)
    (now : Nat) (db : DB) : Except Exn StatusUpdateResult × DB :=
  match SupportTicketsService.findTicket db ticketId with
  | none => (.error (.notFound "Support ticket not found"), db)
  | some ticket =>
    let newClosedAt : Option Nat :=
      if status = TicketStatus.CLOSED then some now
      else if status = TicketStatus.OPEN ∧ ticket.closedAt ≠ none then none
      else ticket.closedAt
    let newPriority := match priority with
      | some p => p
      | none => ticket.priority
    let updated :=
      { ticket with
          status := status, priority := newPriority,
          closedAt := newClosedAt, updatedAt := now }
    let db1 :=
      { db with
          tickets := db.tickets.map fun t =>
            if t.id = ticketId then
              { t with status := status, priority := newPriority,
                       closedAt := newClosedAt, updatedAt := now }
            else t }
    let db2 := match internalNotes with
      | some notes => addInternalNote ticketId notes adminUserId "GENERAL" noteId now db1
      | none => db1
    (.ok { id := updated.id, status := updated.status, priority := updated.priority,
           updatedAt := updated.updatedAt, closedAt := updated.closedAt }, db2)

/-- Model of `AdminSupportTicketService.deleteTicket`: "soft delete by updating status"
(sets the ticket CLOSED with a `closedAt` timestamp). -/
def deleteTicket (ticketId : String) (adminUserId : String) (reason : String)
    (now : Nat) (db : DB) : Except Exn Unit × DB :=
  match SupportTicketsService.findTicket db ticketId with
  | none => (.error (.notFound "Support ticket not found"), db)
  | some _ =>
    (.ok (),
     { db with
         tickets := db.tickets.map fun t =>
           if t.id = ticketId then
             { t with status := TicketStatus.CLOSED, closedAt := some now, updatedAt := now }
           else t })

/-- Model of `AdminSupportTicketService.logAdminAction` (private): a stub that only
emits one process-log line inside its own try/catch; it never throws and
never touches the database. -/
def logAdminAction (adminUserId : String) (action : String) (resourceId : String)
    (changes : String) (db : DB) (processLog : List String) :
    Except Exn Unit × DB × List String :=
  (.ok (), db,
   processLog ++
     ["Admin action: " ++ action ++ " on resource " ++ resourceId ++
      " by admin " ++ adminUserId ++ " " ++ changes])

end AdminSupportTicketService

/-! ### AdminSupportTicketController (PATCH ticket status endpoint) -/

namespace AdminSupportTicketController

/-- Request body of the admin ticket-status update endpoint. -/
structure UpdateStatusBody where
  status : Option TicketStatus := none
  priority : Option Priority := none
  reason : Option String := none
  internalNotes : Option String := none
deriving DecidableEq, Repr

/-- Model of `AdminSupportTicketController.updateTicketStatus`: staff gate, then the
service call with `body.status || 'OPEN'`. -/
def updateTicketStatus (ticketId : String) (body : UpdateStatusBody)
    (adminUserId : String) (adminRoles : List String) (noteId : String) (now : Nat)
    (db : DB) : Except Exn AdminSupportTicketService.StatusUpdateResult × DB :=
  match PermissionUtils.requireStaff adminRoles with
  | .error e => (.error e, db)
  | .ok _ =>
    AdminSupportTicketService.updateTicketStatus ticketId
      (body.status.getD TicketStatus.OPEN) adminUserId body.priority body.internalNotes
      noteId now db

end AdminSupportTicketController

/-! ### AdminUserService.deleteUser (src/unnamed/part_006) -/

namespace AdminUserService

/-- Model of `AdminUserService.deleteUser`: looks up the target user and the admin,
then runs `prisma.user.update` whose `data` block contains only
`updatedAt: new Date()` (the code comments call this a soft-delete
"workaround" that marks nothing). -/
def deleteUser (id : String) (adminId : String) (now : Nat) (db : DB) :
    Except Exn Unit × DB :=
  match SupportTicketsService.findUser db id with
  | none => (.error (.notFound "User not found"), db)
  | some _ =>
    match SupportTicketsService.findUser db adminId with
    | none => (.error (.notFound "Admin user not found"), db)
    | some _ =>
      (.ok (),
       { db with
           users := db.users.map fun u =>
             if u.id = id then { u with updatedAt := now } else u })

end AdminUserService

/-! ### ContactMessagesService.deleteContactMessage (src/unnamed/part_015) -/

namespace ContactMessagesService

/-- Model of `deleteContactMessage`: 400 on a missing message, otherwise
`prisma.contactMessage.delete` removes the row. -/
def deleteContactMessage (id : String) (db : DB) : Except Exn String × DB :=
  match db.contactMessages.find? (fun m => decide (m.id = id)) with
  | none => (.error (.badRequest "Contact message not found"), db)
  | some _ =>
    (.ok id,
     { db with contactMessages := db.contactMessages.filter fun m => !(decide (m.id = id)) })

end ContactMessagesService

/-! ### BlogPostsService.createBlogPost (src/unnamed/part_013) -/

namespace BlogPostsService

/-- DTO for `createBlogPost`. -/
structure CreateBlogPostDto where
  title : String
  slug : String
  content : String
  thumbnail : Option String := none
  published : Option Bool := none
  tags : Option (List String) := none
deriving DecidableEq, Repr

/-- Model of `createBlogPost`: 400 when the slug already exists, otherwise create. -/
def createBlogPost (userId : String) (userName : String) (dto : CreateBlogPostDto)
    (newId : String) (db : DB) : Except Exn BlogPost × DB :=
  match db.blogPosts.find? (fun b => decide (b.slug = dto.slug)) with
  | some _ => (.error (.badRequest "A blog post with this slug already exists"), db)
  | none =>
    let post : BlogPost :=
      { id := newId, title := dto.title, slug := dto.slug, content := dto.content,
        thumbnail := dto.thumbnail, published := dto.published.getD false,
        authorId := userId, authorName := userName, tags := dto.tags.getD [] }
    (.ok post, { db with blogPosts := db.blogPosts ++ [post] })

end BlogPostsService

/-! ### AdminAuditLogService (src/admin/services/admin-audit-log.service.ts) -/

namespace AdminAuditLogService

/-- Summary block of the stubbed audit-log response. -/
structure AuditSummary where
  totalLogs : Nat
  todayLogs : Nat
  securityEvents : Nat
  errorLogs : Nat
deriving DecidableEq, Repr

/-- Shape of the `getAuditLogs` response. -/
structure AuditLogsResult where
  logs : List String
  total : Nat
  hasMore : Bool
  summary : AuditSummary
deriving DecidableEq, Repr

/-- Model of `getAuditLogs`: a stub: for every query it returns the fixed empty
response object and reads nothing. -/
def getAuditLogs (query : String) : AuditLogsResult :=
  { logs := [], total := 0, hasMore := false,
    summary := { totalLogs := 0, todayLogs := 0, securityEvents := 0, errorLogs := 0 } }

end AdminAuditLogService

/-! ### AdminUserGrowthService (date-bucketed user-growth aggregation) -/

namespace AdminUserGrowthService

/-- One calendar day in the millisecond timeline of `Date`. -/
def dayMs : Nat := 86400000

/-- The calendar day (UTC) of a millisecond timestamp, as in
`date.toISOString().split('T')[0]`. -/
def dayOf (t : Nat) : Nat := t / dayMs

/-- The clause `where.status` with the `in` filter is added only when the filter
list is non-empty. -/
def statusOk (userStatusFilter : List UserStatus) (u : User) : Bool :=
  if userStatusFilter.length > 0 then decide (u.status ∈ userStatusFilter) else true

/-- The `where` clause of the growth query: `createdAt` between the bounds,
plus the optional status filter. -/
def userInRange (startDate endDate : Nat) (userStatusFilter : List UserStatus)
    (u : User) : Bool :=
  decide (startDate ≤ u.createdAt) && decide (u.createdAt ≤ endDate) &&
    statusOk userStatusFilter u

/-- The day-stepping fill loop (`while currentDateStr <= endDateStr`). -/
def growthDays (d e : Nat) : List Nat :=
  if d ≤ e then d :: growthDays (d + 1) e else []
termination_by e + 1 - d
decreasing_by omega

/-- Model of `AdminUserGrowthService.getUserGrowthData`: aggregate matching users per
calendar day, then emit one `(day, count)` entry per day of the range,
missing days filled with 0. -/
def getUserGrowthData (startDate endDate : Nat) (userStatusFilter : List UserStatus)
    (users : List User) : List (Nat × Nat) :=
  let matching := users.filter (userInRange startDate endDate userStatusFilter)
  (growthDays (dayOf startDate) (dayOf endDate)).map fun d =>
    (d, (matching.filter fun u => decide (dayOf u.createdAt = d)).length)

end AdminUserGrowthService

/-! ### Concrete fixtures used to instantiate the theorems -/

/-- An ordinary (non-staff) user. -/
def wUser1 : User :=
  { id := "u1", email := "alice@example.com", name := "Alice", roles := ["user"],
    status := UserStatus.ACTIVE, createdAt := 100, updatedAt := 100 }

/-- An admin user. -/
def wAdmin : User :=
  { id := "a1", email := "root@example.com", name := "Root", roles := ["admin"],
    status := UserStatus.ACTIVE, createdAt := 1, updatedAt := 1 }

/-- A closed ticket created by `u1`. -/
def wTicketClosed : SupportTicket :=
  { id := "t1", title := "Broken build", description := some "It fails",
    status := TicketStatus.CLOSED, priority := Priority.NORMAL,
    createdById := some "u1", assignedToId := none, closedAt := some 50,
    createdAt := 5, updatedAt := 50 }

/-- An open ticket created by `u1`. -/
def wTicketOpen : SupportTicket :=
  { id := "t2", title := "Question", description := none,
    status := TicketStatus.OPEN, priority := Priority.LOW,
    createdById := some "u1", assignedToId := none, closedAt := none,
    createdAt := 7, updatedAt := 7 }

/-- A pending reopen request for ticket `t1`. -/
def wReqPending : TicketReopenRequest :=
  { id := "r1", ticketId := "t1", requestedById := some "u1", reason := "still broken",
    status := ReopenStatus.PENDING, reviewedById := none, reviewedAt := none,
    createdAt := 60, updatedAt := 60 }

/-- A database with the fixtures above, one contact message and one blog post. -/
def wDB : DB :=
  { users := [wUser1, wAdmin],
    tickets := [wTicketClosed, wTicketOpen],
    replies := [],
    reopenRequests := [wReqPending],
    contactMessages := [{ id := "m1", name := "Bob", email := "bob@example.com" }],
    blogPosts := [{ id := "b1", title := "Hello", slug := "hello", content := "hi",
                    thumbnail := none, published := true, authorId := "u1",
                    authorName := "Alice", tags := [] }] }

/-- Copy of `wDB` without the pending reopen request (for the creation success path). -/
def wDB2 : DB := { wDB with reopenRequests := [] }

/-! ### Helper lemmas -/

/-- An update that preserves the searched key commutes with `find?`. -/
theorem find?_map_of_pres {α : Type} (l : List α) (f : α → α) (p : α → Bool)
    (hp : ∀ a, p (f a) = p a) :
    (l.map f).find? p = Option.map f (l.find? p) := by
  rw [List.find?_map]
  have : (p ∘ f) = p := funext hp
  rw [this]

theorem mem_insertSorted {α : Type} (le : α → α → Bool) (a x : α) (l : List α) :
    x ∈ insertSorted le a l ↔ x = a ∨ x ∈ l := by
  induction l with
  | nil => simp [insertSorted]
  | cons b bs ih =>
    simp only [insertSorted]
    by_cases h : le a b = true
    · simp [h]
    · simp [h, ih]
      tauto

theorem mem_sortRows {α : Type} (le : α → α → Bool) (x : α) (l : List α) :
    x ∈ sortRows le l ↔ x ∈ l := by
  induction l with
  | nil => simp [sortRows]
  | cons a as ih =>
    simp [sortRows, mem_insertSorted, ih]

theorem isStaff_false_of_none (roles : List String)
    (h1 : "admin" ∉ roles) (h2 : "staff" ∉ roles) (h3 : "support" ∉ roles)
    (h4 : "developer" ∉ roles) : PermissionUtils.isStaff roles = false := by
  rw [PermissionUtils.isStaff]
  apply Bool.eq_false_iff.mpr
  intro hany
  obtain ⟨r, hr, hf⟩ := List.any_eq_true.mp hany
  simp only [Bool.or_eq_true, beq_iff_eq, UserRole.ADMIN, UserRole.STAFF,
    UserRole.SUPPORT_AGENT, UserRole.DEVELOPER] at hf
  rcases hf with ((h | h) | h) | h <;> subst h
  · exact h1 hr
  · exact h2 hr
  · exact h3 hr
  · exact h4 hr

namespace SupportTicketsService

theorem whereWithAssignee_ok_createdById {w w' : WhereClause} {userId : String}
    {a : Option String} {roles : List String}
    (h : whereWithAssignee w userId a roles = .ok w') :
    w'.createdById = w.createdById := by
  cases a with
  | none =>
    simp only [whereWithAssignee] at h
    injection h with h
    rw [← h]
  | some aid =>
    simp only [whereWithAssignee] at h
    split at h
    · exact absurd h (by simp)
    · injection h with h
      rw [← h]

theorem whereWithCreator_ok_createdById {w w' : WhereClause} {userId : String}
    {c : Option String} {roles : List String}
    (hstaff : PermissionUtils.isStaff roles = false)
    (h : whereWithCreator w userId c roles = .ok w') :
    w'.createdById = w.createdById ∨ w'.createdById = some userId := by
  cases c with
  | none =>
    simp only [whereWithCreator] at h
    injection h with h
    rw [← h]
    exact Or.inl rfl
  | some cid =>
    simp only [whereWithCreator] at h
    split at h
    · exact absurd h (by simp)
    · rename_i hcond
      have hcid : cid = userId := by
        by_contra hne
        exact hcond ⟨hstaff, hne⟩
      injection h with h
      rw [← h]
      exact Or.inr (by simp [hcid])

theorem whereWithPriority_createdById (w : WhereClause) (p : Option Priority) :
    (whereWithPriority w p).createdById = w.createdById := by
  cases p <;> rfl

theorem whereWithSearch_createdById (w : WhereClause) (s : Option String) :
    (whereWithSearch w s).createdById = w.createdById := by
  cases s <;> rfl

theorem buildWhere_ok_createdById {userId : String} {q : TicketQueryDto}
    {roles : List String} {w : WhereClause}
    (hstaff : PermissionUtils.isStaff roles = false)
    (h : buildWhere userId q roles = .ok w) :
    w.createdById = some userId := by
  rw [buildWhere] at h
  rw [hstaff] at h
  simp only [Bool.false_eq_true, if_false] at h
  cases hA : whereWithAssignee { createdById := some userId } userId q.assigneeId roles with
  | error e => rw [hA] at h; exact absurd h (by simp)
  | ok w1 =>
    rw [hA] at h
    dsimp only at h
    cases hC : whereWithCreator w1 userId q.creatorId roles with
    | error e => rw [hC] at h; exact absurd h (by simp)
    | ok w2 =>
      rw [hC] at h
      injection h with h
      rw [← h, whereWithSearch_createdById, whereWithPriority_createdById]
      rcases whereWithCreator_ok_createdById hstaff hC with h2 | h2
      · rw [h2, whereWithAssignee_ok_createdById hA]
      · exact h2

theorem matchesWhere_createdById {w : WhereClause} {t : SupportTicket} {c : String}
    (hw : w.createdById = some c) (hm : matchesWhere w t = true) :
    t.createdById = some c := by
  rw [matchesWhere, hw] at hm
  simp only [Bool.and_eq_true] at hm
  exact of_decide_eq_true hm.1.1.1.1

end SupportTicketsService

namespace AdminUserGrowthService

theorem growthDays_eq_range' : ∀ n d e, e + 1 - d = n → growthDays d e = List.range' d n := by
  intro n
  induction n with
  | zero =>
    intro d e h
    rw [growthDays]
    have hde : ¬ d ≤ e := by omega
    simp [hde, List.range']
  | succ m ih =>
    intro d e h
    rw [growthDays]
    have hde : d ≤ e := by omega
    simp only [hde, if_true]
    rw [ih (d + 1) e (by omega)]
    rfl

end AdminUserGrowthService

/-- C8: `isStaff` is true exactly when one of the four staff roles occurs,
and `requireStaff` throws `ForbiddenException` exactly when `isStaff` is false. -/
theorem isStaff_requireStaff_spec (roles : List String) :
    (PermissionUtils.isStaff roles = true ↔
      ∃ r ∈ roles, r = "admin" ∨ r = "staff" ∨ r = "support" ∨ r = "developer")
    ∧ ((∃ msg, PermissionUtils.requireStaff roles = .error (.forbidden msg)) ↔
        PermissionUtils.isStaff roles = false) := by
  constructor
  · simp only [PermissionUtils.isStaff, List.any_eq_true, UserRole.ADMIN, UserRole.STAFF,
      UserRole.SUPPORT_AGENT, UserRole.DEVELOPER, Bool.or_eq_true, beq_iff_eq]
    constructor
    · rintro ⟨r, hr, h⟩
      exact ⟨r, hr, by tauto⟩
    · rintro ⟨r, hr, h⟩
      exact ⟨r, hr, by tauto⟩
  · constructor
    · rintro ⟨msg, h⟩
      by_contra hne
      simp only [Bool.not_eq_false] at hne
      simp [PermissionUtils.requireStaff, hne] at h
    · intro h
      refine ⟨"Access denied. Staff role required.", ?_⟩
      simp [PermissionUtils.requireStaff, h]

/-- C10: `getPermissionLevel` never returns the documented admin level 3,
because any role list containing `'admin'` already satisfies `isDeveloper`
and is assigned level 4. -/
theorem getPermissionLevel_never_three (roles : List String) :
    PermissionUtils.getPermissionLevel roles ≠ 3
    ∧ ("admin" ∈ roles → PermissionUtils.getPermissionLevel roles = 4) := by
  have hdev : PermissionUtils.isAdmin roles = true → PermissionUtils.isDeveloper roles = true := by
    intro h
    simp [PermissionUtils.isDeveloper, PermissionUtils.isAdmin] at *
    exact Or.inr h
  constructor
  · intro hcontra
    unfold PermissionUtils.getPermissionLevel at hcontra
    by_cases h1 : PermissionUtils.isDeveloper roles
    · simp [h1] at hcontra
    · by_cases h2 : PermissionUtils.isAdmin roles
      · exact h1 (hdev h2)
      · by_cases h3 : UserRole.STAFF ∈ roles <;>
          by_cases h4 : PermissionUtils.isSupportAgent roles <;>
          simp [h1, h2, h3, h4] at hcontra
  · intro hmem
    have hadm : PermissionUtils.isAdmin roles = true := by
      simp [PermissionUtils.isAdmin, UserRole.ADMIN]
      exact hmem
    unfold PermissionUtils.getPermissionLevel
    simp [hdev hadm]

/-- C1: for a PENDING reopen request, `SupportTicketsService.processReopenRequest`
with `approve = true` sets the request APPROVED with reviewer and review time and
reopens the referenced ticket (status OPEN, `closedAt` null); with
`approve = false` it sets the request REJECTED and leaves the tickets table
untouched; a non-PENDING request yields `BadRequestException` with no state
change.  (The staff gate at the top of the method is assumed passed.) -/
theorem processReopenRequest_spec
    (requestId userId : String) (userRoles : List String) (now : Nat) (db : DB)
    (req : TicketReopenRequest)
    (hstaff : PermissionUtils.isStaff userRoles = true)
    (hfind : SupportTicketsService.findReopenRequest db requestId = some req) :
    (req.status = ReopenStatus.PENDING →
      ((SupportTicketsService.processReopenRequest requestId true userId userRoles now db).1 =
          .ok (reviewedRequest req ReopenStatus.APPROVED userId now)
        ∧ SupportTicketsService.findReopenRequest
            (SupportTicketsService.processReopenRequest requestId true userId userRoles now db).2
            requestId = some (reviewedRequest req ReopenStatus.APPROVED userId now)
        ∧ (∀ t ∈ (SupportTicketsService.processReopenRequest requestId true userId userRoles
              now db).2.tickets,
            t.id = req.ticketId → t.status = TicketStatus.OPEN ∧ t.closedAt = none)
        ∧ (SupportTicketsService.processReopenRequest requestId false userId userRoles now db).1 =
            .ok (reviewedRequest req ReopenStatus.REJECTED userId now)
        ∧ SupportTicketsService.findReopenRequest
            (SupportTicketsService.processReopenRequest requestId false userId userRoles now db).2
            requestId = some (reviewedRequest req ReopenStatus.REJECTED userId now)
        ∧ (SupportTicketsService.processReopenRequest requestId false userId userRoles
            now db).2.tickets = db.tickets))
    ∧ (req.status ≠ ReopenStatus.PENDING →
        ∀ approve,
          SupportTicketsService.processReopenRequest requestId approve userId userRoles now db =
            (.error (.badRequest "This reopen request has already been processed"), db)) := by
  have hrs : PermissionUtils.requireStaff userRoles = .ok () := by
    simp [PermissionUtils.requireStaff, hstaff]
  have hid : req.id = requestId := by
    rw [SupportTicketsService.findReopenRequest] at hfind
    have h := List.find?_some hfind
    exact of_decide_eq_true h
  have hmapfind : ∀ (s : ReopenStatus),
      (db.reopenRequests.map fun r =>
        if r.id = requestId then
          { r with status := s, reviewedById := some userId, reviewedAt := some now }
        else r).find? (fun r => decide (r.id = requestId)) =
      some (reviewedRequest req s userId now) := by
    intro s
    rw [find?_map_of_pres]
    · rw [SupportTicketsService.findReopenRequest] at hfind
      rw [hfind]
      simp [hid, reviewedRequest]
    · intro a
      by_cases h : a.id = requestId <;> simp [h]
  constructor
  · intro hp
    refine ⟨?_, ?_, ?_, ?_, ?_, ?_⟩
    · simp [SupportTicketsService.processReopenRequest, hrs, hfind, hp, reviewedRequest]
    · simp only [SupportTicketsService.processReopenRequest, hrs, hfind]
      simp only [hp, ne_eq, not_true_eq_false, if_false]
      simp [SupportTicketsService.findReopenRequest, hmapfind ReopenStatus.APPROVED]
    · intro t ht hidt
      simp only [SupportTicketsService.processReopenRequest, hrs, hfind] at ht
      simp only [hp, ne_eq, not_true_eq_false, if_false, if_true] at ht
      obtain ⟨t0, ht0, rfl⟩ := List.mem_map.mp ht
      by_cases h0 : t0.id = req.ticketId
      · simp [h0]
      · rw [if_neg h0] at hidt
        exact absurd hidt h0
    · simp [SupportTicketsService.processReopenRequest, hrs, hfind, hp, reviewedRequest]
    · simp only [SupportTicketsService.processReopenRequest, hrs, hfind]
      simp only [hp, ne_eq, not_true_eq_false, if_false]
      simp [SupportTicketsService.findReopenRequest, hmapfind ReopenStatus.REJECTED]
    · simp [SupportTicketsService.processReopenRequest, hrs, hfind, hp]
  · intro hnp approve
    simp [SupportTicketsService.processReopenRequest, hrs, hfind, hnp]

/-- Witness for C1: concrete run on `wDB` with the pending request `r1`. -/
theorem processReopenRequest_spec_witness :
    (SupportTicketsService.processReopenRequest "r1" true "a1" ["admin"] 99 wDB).1 =
      .ok (reviewedRequest wReqPending ReopenStatus.APPROVED "a1" 99)
    ∧ (SupportTicketsService.processReopenRequest "r1" false "a1" ["admin"] 99 wDB).2.tickets =
        wDB.tickets :=
  have h := processReopenRequest_spec "r1" "a1" ["admin"] 99 wDB wReqPending
    (by decide) (by decide)
  ⟨(h.1 (by decide)).1, (h.1 (by decide)).2.2.2.2.2⟩

/-- C2: on an existing ticket, `SupportTicketsService.createReopenRequest`
throws `ForbiddenException` when the caller is not the creator,
`BadRequestException` when the ticket is not CLOSED, `BadRequestException`
when a PENDING reopen request already exists, and otherwise appends exactly
one new PENDING reopen request for that ticket and caller. -/
theorem createReopenRequest_spec
    (ticketId userId reason newId : String) (now : Nat) (db : DB)
    (ticket : SupportTicket)
    (hfind : SupportTicketsService.findTicket db ticketId = some ticket) :
    (ticket.createdById ≠ some userId →
      ∃ msg, SupportTicketsService.createReopenRequest ticketId userId reason newId now db =
        (.error (.forbidden msg), db))
    ∧ (ticket.createdById = some userId → ticket.status ≠ TicketStatus.CLOSED →
        SupportTicketsService.createReopenRequest ticketId userId reason newId now db =
          (.error (.badRequest "Only closed tickets can be reopened"), db))
    ∧ (ticket.createdById = some userId → ticket.status = TicketStatus.CLOSED →
        (∃ r, SupportTicketsService.findPendingReopen db ticketId = some r) →
        SupportTicketsService.createReopenRequest ticketId userId reason newId now db =
          (.error (.badRequest "A reopen request is already pending for this ticket"), db))
    ∧ (ticket.createdById = some userId → ticket.status = TicketStatus.CLOSED →
        SupportTicketsService.findPendingReopen db ticketId = none →
        SupportTicketsService.createReopenRequest ticketId userId reason newId now db =
          (.ok { id := newId, ticketId := ticketId, requestedById := some userId,
                 reason := reason, status := ReopenStatus.PENDING, reviewedById := none,
                 reviewedAt := none, createdAt := now, updatedAt := now },
           { db with
               reopenRequests := db.reopenRequests ++
                 [{ id := newId, ticketId := ticketId, requestedById := some userId,
                    reason := reason, status := ReopenStatus.PENDING, reviewedById := none,
                    reviewedAt := none, createdAt := now, updatedAt := now }] })) := by
  have hstaffnil : PermissionUtils.isStaff [] = false := rfl
  refine ⟨?_, ?_, ?_, ?_⟩
  · intro hne
    refine ⟨"You can only view your own tickets", ?_⟩
    simp [SupportTicketsService.createReopenRequest, SupportTicketsService.getTicketById,
      hfind, hstaffnil, hne]
  · intro hc hs
    simp [SupportTicketsService.createReopenRequest, SupportTicketsService.getTicketById,
      hfind, hstaffnil, hc, hs]
  · rintro hc hs ⟨r, hr⟩
    simp [SupportTicketsService.createReopenRequest, SupportTicketsService.getTicketById,
      hfind, hstaffnil, hc, hs, hr]
  · intro hc hs hnone
    simp [SupportTicketsService.createReopenRequest, SupportTicketsService.getTicketById,
      hfind, hstaffnil, hc, hs, hnone]

/-- Witness for C2: the duplicate-pending rejection on `wDB` and the creation
success path on `wDB2` (same closed ticket, no pending request). -/
theorem createReopenRequest_spec_witness :
    SupportTicketsService.createReopenRequest "t1" "u1" "again" "r2" 70 wDB =
      (.error (.badRequest "A reopen request is already pending for this ticket"), wDB)
    ∧ SupportTicketsService.createReopenRequest "t1" "u1" "again" "r2" 70 wDB2 =
        (.ok { id := "r2", ticketId := "t1", requestedById := some "u1", reason := "again",
               status := ReopenStatus.PENDING, reviewedById := none, reviewedAt := none,
               createdAt := 70, updatedAt := 70 },
         { wDB2 with
             reopenRequests := [{ id := "r2", ticketId := "t1", requestedById := some "u1",
                                  reason := "again", status := ReopenStatus.PENDING,
                                  reviewedById := none, reviewedAt := none,
                                  createdAt := 70, updatedAt := 70 }] }) :=
  ⟨(createReopenRequest_spec "t1" "u1" "again" "r2" 70 wDB wTicketClosed
      (by decide)).2.2.1 (by decide) (by decide) ⟨wReqPending, by decide⟩,
   (createReopenRequest_spec "t1" "u1" "again" "r2" 70 wDB2 wTicketClosed
      (by decide)).2.2.2 (by decide) (by decide) (by decide)⟩

/-- C3: for a user with none of the staff roles, `getTickets` returns only
tickets created by that user, and `getTicketById` throws `ForbiddenException`
exactly when the ticket exists and was created by someone else. -/
theorem tickets_access_control
    (userId ticketId : String) (userRoles : List String)
    (q : SupportTicketsService.TicketQueryDto) (db : DB)
    (h1 : "admin" ∉ userRoles) (h2 : "staff" ∉ userRoles)
    (h3 : "support" ∉ userRoles) (h4 : "developer" ∉ userRoles) :
    (∀ res, SupportTicketsService.getTickets userId q userRoles db = .ok res →
      ∀ t ∈ res.tickets, t.createdById = some userId)
    ∧ ((∃ msg, SupportTicketsService.getTicketById ticketId userId userRoles db =
          .error (.forbidden msg)) ↔
        (∃ t, SupportTicketsService.findTicket db ticketId = some t ∧
          t.createdById ≠ some userId)) := by
  have hstaff := isStaff_false_of_none userRoles h1 h2 h3 h4
  constructor
  · intro res hres t ht
    rw [SupportTicketsService.getTickets] at hres
    cases hb : SupportTicketsService.buildWhere userId q userRoles with
    | error e => rw [hb] at hres; exact absurd hres (by simp)
    | ok w =>
      rw [hb] at hres
      dsimp only at hres
      injection hres with hres
      rw [← hres] at ht
      dsimp only at ht
      have ht1 := List.mem_of_mem_take ht
      have ht2 := List.mem_of_mem_drop ht1
      have ht3 := (mem_sortRows _ _ _).mp ht2
      have ht4 := List.mem_filter.mp ht3
      exact SupportTicketsService.matchesWhere_createdById
        (SupportTicketsService.buildWhere_ok_createdById hstaff hb) ht4.2
  · rw [SupportTicketsService.getTicketById]
    cases hft : SupportTicketsService.findTicket db ticketId with
    | none =>
      dsimp only
      constructor
      · rintro ⟨msg, hmsg⟩; exact absurd hmsg (by simp)
      · rintro ⟨t, hsome, _⟩; exact absurd hsome (by simp)
    | some t =>
      dsimp only
      by_cases hc : t.createdById = some userId
      · have hno : ¬ (PermissionUtils.isStaff userRoles = false ∧
            t.createdById ≠ some userId) := fun hh => hh.2 hc
        rw [if_neg hno]
        constructor
        · rintro ⟨msg, hmsg⟩; exact absurd hmsg (by simp)
        · rintro ⟨t', hsome, hne⟩
          injection hsome with h'
          exact absurd (h' ▸ hc) hne
      · rw [if_pos ⟨hstaff, hc⟩]
        constructor
        · intro _; exact ⟨t, rfl, hc⟩
        · intro _; exact ⟨"You can only view your own tickets", rfl⟩

/-- Witness for C3: the plain user `u2` lists tickets on `wDB` (default query)
and is refused `u1`'s ticket `t1`. -/
theorem tickets_access_control_witness :
    (∀ res, SupportTicketsService.getTickets "u2" {} ["user"] wDB = .ok res →
      ∀ t ∈ res.tickets, t.createdById = some "u2")
    ∧ ((∃ msg, SupportTicketsService.getTicketById "t1" "u2" ["user"] wDB =
          .error (.forbidden msg)) ↔
        (∃ t, SupportTicketsService.findTicket wDB "t1" = some t ∧
          t.createdById ≠ some "u2")) :=
  tickets_access_control "u2" "t1" ["user"] {} wDB (by decide) (by decide)
    (by decide) (by decide)

/-- C4 counterexample: an update operation in a service does reject an input
for violating a cross-row state condition of its own — `assignTicket` on the
concrete state `wDB` rejects assignee `u1` (whose roles lack every staff role)
with `BadRequestException`, leaving the database unchanged. -/
theorem assignTicket_rejects_nonstaff_assignee :
    SupportTicketsService.assignTicket "t1" (some "u1") "a1" ["admin"] wDB =
      (.error (.badRequest "Assignee must be a staff member"), wDB) := by rfl

/-- C4 amended: among the cited operations, `assignTicket` rejects a non-staff
assignee, `createReopenRequest` rejects a ticket that is not CLOSED, and
`createBlogPost` rejects a duplicate slug — each an application-code check
beyond a plain foreign-key/uniqueness constraint of the caller's own row. -/
theorem service_state_checks (db : DB) :
    (∀ ticketId aid userId roles ticket assignee,
      PermissionUtils.isStaff roles = true →
      SupportTicketsService.findTicket db ticketId = some ticket →
      SupportTicketsService.findUser db aid = some assignee →
      PermissionUtils.isStaff assignee.roles = false →
      SupportTicketsService.assignTicket ticketId (some aid) userId roles db =
        (.error (.badRequest "Assignee must be a staff member"), db))
    ∧ (∀ ticketId userId reason newId now ticket,
        SupportTicketsService.findTicket db ticketId = some ticket →
        ticket.createdById = some userId →
        ticket.status ≠ TicketStatus.CLOSED →
        SupportTicketsService.createReopenRequest ticketId userId reason newId now db =
          (.error (.badRequest "Only closed tickets can be reopened"), db))
    ∧ (∀ userId userName dto newId post,
        db.blogPosts.find? (fun b => decide (b.slug = dto.slug)) = some post →
        BlogPostsService.createBlogPost userId userName dto newId db =
          (.error (.badRequest "A blog post with this slug already exists"), db)) := by
  refine ⟨?_, ?_, ?_⟩
  · intro ticketId aid userId roles ticket assignee hroles hft hfu hnostaff
    have hrs : PermissionUtils.requireStaff roles = .ok () := by
      simp [PermissionUtils.requireStaff, hroles]
    simp [SupportTicketsService.assignTicket, hrs, hft, hfu, hnostaff]
  · intro ticketId userId reason newId now ticket hft hc hs
    have hstaffnil : PermissionUtils.isStaff [] = false := rfl
    simp [SupportTicketsService.createReopenRequest, SupportTicketsService.getTicketById,
      hft, hstaffnil, hc, hs]
  · intro userId userName dto newId post hfind
    simp [BlogPostsService.createBlogPost, hfind]

/-- Witness for the amended C4, on `wDB`: ticket `t1` with non-staff assignee
`u1`; the OPEN ticket `t2` refused reopening; the duplicate slug `hello`. -/
theorem service_state_checks_witness :
    SupportTicketsService.assignTicket "t1" (some "u1") "a1" ["admin"] wDB =
      (.error (.badRequest "Assignee must be a staff member"), wDB)
    ∧ SupportTicketsService.createReopenRequest "t2" "u1" "why" "r9" 80 wDB =
        (.error (.badRequest "Only closed tickets can be reopened"), wDB)
    ∧ BlogPostsService.createBlogPost "u1" "Alice"
        { title := "Hi again", slug := "hello", content := "dup" } "b2" wDB =
        (.error (.badRequest "A blog post with this slug already exists"), wDB) :=
  ⟨(service_state_checks wDB).1 "t1" "u1" "a1" ["admin"] wTicketClosed wUser1
      (by decide) (by decide) (by decide) (by decide),
   (service_state_checks wDB).2.1 "t2" "u1" "why" "r9" 80 wTicketOpen
      (by decide) (by decide) (by decide),
   (service_state_checks wDB).2.2 "u1" "Alice"
      { title := "Hi again", slug := "hello", content := "dup" } "b2"
      { id := "b1", title := "Hello", slug := "hello", content := "hi",
        thumbnail := none, published := true, authorId := "u1",
        authorName := "Alice", tags := [] } (by decide)⟩

/-- C5: the delete lifecycle, evaluated concretely.  `deleteContactMessage`
hard-deletes its row and `deleteTicket` soft-deletes (CLOSED with `closedAt`),
but `AdminUserService.deleteUser` reports success while leaving the user row
present with status ACTIVE — neither removed nor marked deleted; only
`updatedAt` changes. -/
theorem deleteUser_leaves_row_unmarked :
    (AdminUserService.deleteUser "u1" "a1" 999 wDB).1 = .ok ()
    ∧ (AdminUserService.deleteUser "u1" "a1" 999 wDB).2.users =
        [{ wUser1 with updatedAt := 999 }, wAdmin]
    ∧ ({ wUser1 with updatedAt := 999 } : User).status = UserStatus.ACTIVE
    ∧ (ContactMessagesService.deleteContactMessage "m1" wDB).2.contactMessages = []
    ∧ (AdminSupportTicketService.deleteTicket "t1" "a1" "cleanup" 999 wDB).2.tickets =
        [{ wTicketClosed with
             status := TicketStatus.CLOSED, closedAt := some 999, updatedAt := 999 },
         wTicketOpen] :=
  ⟨rfl, rfl, rfl, rfl, rfl⟩

/-- C6: admin audit logging is a stub — `logAdminAction` only appends a
process-log line, never throws and leaves the database unchanged, and
`getAuditLogs` returns the fixed empty page for every query. -/
theorem audit_logging_stub_spec :
    (∀ query, (AdminAuditLogService.getAuditLogs query).logs = []
      ∧ (AdminAuditLogService.getAuditLogs query).total = 0
      ∧ (AdminAuditLogService.getAuditLogs query).hasMore = false)
    ∧ (∀ adminUserId action resourceId changes db processLog,
        (AdminSupportTicketService.logAdminAction adminUserId action resourceId changes
          db processLog).1 = .ok ()
        ∧ (AdminSupportTicketService.logAdminAction adminUserId action resourceId changes
            db processLog).2.1 = db) :=
  ⟨fun _ => ⟨rfl, rfl, rfl⟩, fun _ _ _ _ _ _ => ⟨rfl, rfl⟩⟩

/-- C7: for calendar days `s ≤ e` (spanning the timestamps from midnight of
day `s` to the last millisecond of day `e`), `getUserGrowthData` returns
exactly one entry per day from `s` through `e` inclusive, in ascending
order, and each entry counts exactly the users created on that day that
satisfy the status filter (0 when there are none). -/
theorem getUserGrowthData_spec (s e : Nat) (userStatusFilter : List UserStatus)
    (users : List User) (hse : s ≤ e) :
    (AdminUserGrowthService.getUserGrowthData (s * AdminUserGrowthService.dayMs)
        (e * AdminUserGrowthService.dayMs + (AdminUserGrowthService.dayMs - 1))
        userStatusFilter users).map Prod.fst = List.range' s (e + 1 - s)
    ∧ ∀ p ∈ AdminUserGrowthService.getUserGrowthData (s * AdminUserGrowthService.dayMs)
        (e * AdminUserGrowthService.dayMs + (AdminUserGrowthService.dayMs - 1))
        userStatusFilter users,
        p.2 = (users.filter fun u =>
          decide (AdminUserGrowthService.dayOf u.createdAt = p.1) &&
            AdminUserGrowthService.statusOk userStatusFilter u).length := by
  have hds : AdminUserGrowthService.dayOf (s * AdminUserGrowthService.dayMs) = s := by
    rw [AdminUserGrowthService.dayOf, AdminUserGrowthService.dayMs]
    omega
  have hde : AdminUserGrowthService.dayOf
      (e * AdminUserGrowthService.dayMs + (AdminUserGrowthService.dayMs - 1)) = e := by
    rw [AdminUserGrowthService.dayOf, AdminUserGrowthService.dayMs]
    omega
  constructor
  · rw [AdminUserGrowthService.getUserGrowthData]
    rw [List.map_map]
    have hcomp : (Prod.fst ∘ fun d : Nat =>
        (d, ((users.filter (AdminUserGrowthService.userInRange
            (s * AdminUserGrowthService.dayMs)
            (e * AdminUserGrowthService.dayMs + (AdminUserGrowthService.dayMs - 1))
            userStatusFilter)).filter fun u =>
          decide (AdminUserGrowthService.dayOf u.createdAt = d)).length)) = id := rfl
    rw [hcomp, List.map_id, hds, hde,
      AdminUserGrowthService.growthDays_eq_range' (e + 1 - s) s e rfl]
  · intro p hp
    rw [AdminUserGrowthService.getUserGrowthData] at hp
    obtain ⟨d, hd, rfl⟩ := List.mem_map.mp hp
    rw [hds, hde, AdminUserGrowthService.growthDays_eq_range' (e + 1 - s) s e rfl] at hd
    have hdr := List.mem_range'_1.mp hd
    have hdle : s ≤ d ∧ d ≤ e := ⟨hdr.1, by omega⟩
    dsimp only
    rw [List.filter_filter]
    apply congrArg List.length
    apply List.filter_congr
    intro u hu
    by_cases hcd : AdminUserGrowthService.dayOf u.createdAt = d
    · have hrange : (s * AdminUserGrowthService.dayMs ≤ u.createdAt) ∧
          u.createdAt ≤ e * AdminUserGrowthService.dayMs +
            (AdminUserGrowthService.dayMs - 1) := by
        rw [AdminUserGrowthService.dayOf, AdminUserGrowthService.dayMs] at hcd
        rw [AdminUserGrowthService.dayMs]
        omega
      rw [AdminUserGrowthService.userInRange]
      simp [hcd, hrange.1, hrange.2]
    · simp [hcd]

/-- Witness for C7: days 3 through 5 with two users created on day 4 (one
filtered out by status) and none elsewhere. -/
theorem getUserGrowthData_spec_witness :
    ((AdminUserGrowthService.getUserGrowthData (3 * AdminUserGrowthService.dayMs)
        (5 * AdminUserGrowthService.dayMs + (AdminUserGrowthService.dayMs - 1))
        [UserStatus.ACTIVE] [wUser1]).map Prod.fst = List.range' 3 (5 + 1 - 3))
    ∧ ∀ p ∈ AdminUserGrowthService.getUserGrowthData (3 * AdminUserGrowthService.dayMs)
        (5 * AdminUserGrowthService.dayMs + (AdminUserGrowthService.dayMs - 1))
        [UserStatus.ACTIVE] [wUser1],
        p.2 = ([wUser1].filter fun u =>
          decide (AdminUserGrowthService.dayOf u.createdAt = p.1) &&
            AdminUserGrowthService.statusOk [UserStatus.ACTIVE] u).length :=
  getUserGrowthData_spec 3 5 [UserStatus.ACTIVE] [wUser1] (by decide)

/-- C9: when the admin ticket-status update endpoint receives a body without
`status`, the controller substitutes OPEN, so the service sets the ticket's
status to OPEN and clears a previously non-null `closedAt`, for every
supplied priority value. -/
theorem admin_status_update_defaults_to_open
    (ticketId adminUserId : String) (adminRoles : List String)
    (priority : Option Priority) (reasonOpt internalNotes : Option String)
    (noteId : String) (now : Nat) (db : DB) (ticket : SupportTicket)
    (hstaff : PermissionUtils.isStaff adminRoles = true)
    (hfind : SupportTicketsService.findTicket db ticketId = some ticket) :
    (AdminSupportTicketController.updateTicketStatus ticketId
        { status := none, priority := priority, reason := reasonOpt,
          internalNotes := internalNotes } adminUserId adminRoles noteId now db).1 =
      .ok { id := ticket.id, status := TicketStatus.OPEN,
            priority := priority.getD ticket.priority, updatedAt := now,
            closedAt := none }
    ∧ ∀ t ∈ (AdminSupportTicketController.updateTicketStatus ticketId
          { status := none, priority := priority, reason := reasonOpt,
            internalNotes := internalNotes } adminUserId adminRoles noteId now db).2.tickets,
        t.id = ticketId → t.status = TicketStatus.OPEN ∧ t.closedAt = none := by
  have hrs : PermissionUtils.requireStaff adminRoles = .ok () := by
    simp [PermissionUtils.requireStaff, hstaff]
  constructor
  · simp only [AdminSupportTicketController.updateTicketStatus, hrs,
      AdminSupportTicketService.updateTicketStatus, Option.getD, hfind]
    cases internalNotes <;> cases priority <;> by_cases hca : ticket.closedAt = none <;>
      simp [AdminSupportTicketService.addInternalNote, hca]
  · intro t ht hid
    simp only [AdminSupportTicketController.updateTicketStatus, hrs,
      AdminSupportTicketService.updateTicketStatus, Option.getD, hfind] at ht
    rcases internalNotes with _ | notes <;>
      simp only [AdminSupportTicketService.addInternalNote] at ht <;>
    · obtain ⟨t0, ht0, heq⟩ := List.mem_map.mp ht
      by_cases h0 : t0.id = ticketId
      · rw [if_pos h0] at heq
        rw [← heq]
        refine ⟨rfl, ?_⟩
        by_cases hca : ticket.closedAt = none <;> simp [hca]
      · rw [if_neg h0] at heq
        rw [← heq] at hid
        exact absurd hid h0

/-- Witness for C9: the admin updates `t1` (closed, `closedAt` 50) with a body
that omits `status` and supplies priority HIGH. -/
theorem admin_status_update_defaults_to_open_witness :
    (AdminSupportTicketController.updateTicketStatus "t1"
        { status := none, priority := some Priority.HIGH, reason := none,
          internalNotes := none } "a1" ["admin"] "n1" 120 wDB).1 =
      .ok { id := wTicketClosed.id, status := TicketStatus.OPEN,
            priority := (some Priority.HIGH).getD wTicketClosed.priority,
            updatedAt := 120, closedAt := none }
    ∧ ∀ t ∈ (AdminSupportTicketController.updateTicketStatus "t1"
          { status := none, priority := some Priority.HIGH, reason := none,
            internalNotes := none } "a1" ["admin"] "n1" 120 wDB).2.tickets,
        t.id = "t1" → t.status = TicketStatus.OPEN ∧ t.closedAt = none :=
  admin_status_update_defaults_to_open "t1" "a1" ["admin"] (some Priority.HIGH)
    none none "n1" 120 wDB wTicketClosed (by decide) (by decide)

/-- Witness for C8: the four-role characterisation evaluated at a support
agent's role list. -/
theorem isStaff_requireStaff_spec_witness :
    (PermissionUtils.isStaff ["support"] = true ↔
      ∃ r ∈ ["support"], r = "admin" ∨ r = "staff" ∨ r = "support" ∨ r = "developer")
    ∧ ((∃ msg, PermissionUtils.requireStaff ["support"] = .error (.forbidden msg)) ↔
        PermissionUtils.isStaff ["support"] = false) :=
  isStaff_requireStaff_spec ["support"]

/-- Witness for C10: an admin-only role list gets level 4, never 3. -/
theorem getPermissionLevel_never_three_witness :
    PermissionUtils.getPermissionLevel ["admin"] ≠ 3
    ∧ ("admin" ∈ ["admin"] → PermissionUtils.getPermissionLevel ["admin"] = 4) :=
  getPermissionLevel_never_three ["admin"]
